import Mathlib

/-!
Shallow embedding of the Mochi-ai backend (src/mochi/backend), covering the
chat streaming orchestration (router/chat.py), the per-session message listing
(router/chats.py), the persona creation endpoint (router/personas.py), and the
pydantic data model (models/chat.py).

Conventions of the embedding:
- `datetime` values are modelled as `Nat` ticks.
- MongoDB collections are modelled as lists of documents; `insert_one` appends,
  `find_one` is `List.find?`, and the generated `_id` of an insert is supplied
  as an explicit parameter (`newSessionId`, `newPersonaId`).
- `PREDEFINED_CHARACTERS` and `generate_stream_response` live in
  `utils/chatbot.py`, which is not part of the given sources; they are
  abstracted as parameters: the catalog as its list of keys, and the upstream
  model stream as a `StreamOutcome` (the chunks it produces, and whether it
  raises after producing them).
- Python falsiness of an optional string (`if not x`) is `truthy`.
-/

namespace Mochi

/-- Python truthiness of an optional string: `None` and `""` are falsy. -/
def truthy : Option String → Bool
  | none => false
  | some s => !(s == "")

/-- An HTTPException value: status code and detail (fastapi.HTTPException). -/
structure HTTPError where
  status_code : Nat
  detail : String
deriving DecidableEq

deriving instance DecidableEq for Except

/-- models/chat.py `PersonaInDB` (personas collection document). -/
structure PersonaInDB where
  id : Option String := none
  user_id : String
  name : String
  description : String
  tone : String
  is_public : Bool := false
  created_at : Nat := 0
deriving DecidableEq

/-- models/chat.py `MessageInDB` (chat_messages collection document). -/
structure MessageInDB where
  id : Option String := none
  session_id : String
  role : String
  parts : List String
  timestamp : Nat
deriving DecidableEq

/-- models/chat.py `ChatSession` (chat_sessions collection document). -/
structure ChatSession where
  id : Option String := none
  user_id : String
  title : String
  persona_id : String
  last_updated : Nat
deriving DecidableEq

/-- models/chat.py `ChatRequest`: the body of POST /chat/stream. -/
structure ChatRequest where
  message : String
  session_id : Option String := none
  persona_id : Option String := none
deriving DecidableEq

/-- The document store: the three logical collections used by the chat core. -/
structure DB where
  personas : List PersonaInDB
  chat_sessions : List ChatSession
  chat_messages : List MessageInDB
deriving DecidableEq

/-- bson `ObjectId.is_valid` on a string: exactly 24 hexadecimal characters. -/
def ObjectId.is_valid (s : String) : Bool :=
  s.length == 24 &&
    s.data.all (fun c => c.isDigit || ('a' ≤ c && c ≤ 'f') || ('A' ≤ c && c ≤ 'F'))

/-- What `_get_persona_details` returns: either the catalog entry for a
predefined character key, or the stored custom persona document. -/
inductive PersonaDetails where
  | predefined (persona_id : String)
  | custom (persona : PersonaInDB)
deriving DecidableEq

/-- router/chat.py `_get_persona_details` (lines 35-53): catalog lookup first,
then ObjectId validity check, then the personas collection. The catalog
(`PREDEFINED_CHARACTERS` from utils/chatbot.py, not under the given sources) is
abstracted as the list of its keys. Note: no `user_id` parameter, hence no
ownership or visibility check on custom personas. -/
def _get_persona_details (catalog : List String) (persona_id : String) (db : DB) :
    Except HTTPError PersonaDetails :=
  if persona_id = "" then
    .error { status_code := 400, detail := "Persona ID is required for a new chat." }
  else if catalog.contains persona_id then
    .ok (.predefined persona_id)
  else if !(ObjectId.is_valid persona_id) then
    .error { status_code := 400, detail := "Invalid custom persona ID format." }
  else
    match db.personas.find? (fun p => p.id == some persona_id) with
    | none => .error { status_code := 404, detail := "Custom persona not found." }
    | some persona_doc => .ok (.custom persona_doc)

/-- A single write against the document store, in the order the handler issues
them. -/
inductive StoreOp where
  | insertSession (s : ChatSession)
  | insertMessage (m : MessageInDB)
  | touchSession (session_id : String) (now : Nat)
deriving DecidableEq

/-- Effect of one store write on the collections. -/
def applyOp (db : DB) : StoreOp → DB
  | .insertSession s => { db with chat_sessions := db.chat_sessions ++ [s] }
  | .insertMessage m => { db with chat_messages := db.chat_messages ++ [m] }
  | .touchSession sid now =>
      { db with chat_sessions :=
          db.chat_sessions.map (fun s =>
            if s.id == some sid then { s with last_updated := now } else s) }

/-- Effect of a sequence of store writes. -/
def applyOps (db : DB) (ops : List StoreOp) : DB :=
  ops.foldl applyOp db

/-- Insert a message into a timestamp-ascending list, keeping insertion order
among equal timestamps (models the ascending store sort on `timestamp`). -/
def insertByTs (m : MessageInDB) : List MessageInDB → List MessageInDB
  | [] => [m]
  | x :: xs => if m.timestamp < x.timestamp then m :: x :: xs else x :: insertByTs m xs

/-- Sort messages by ascending timestamp (the `.sort("timestamp", 1)` cursor). -/
def sortByTimestamp : List MessageInDB → List MessageInDB
  | [] => []
  | x :: xs => insertByTs x (sortByTimestamp xs)

/-- router/chat.py `_create_new_chat` (lines 57-75): derives the title from the
first message (first 30 characters plus an ellipsis when longer than 30),
builds the session and inserts it; the stored document carries the id assigned
by the insert (`newId`). Returns the created session and the write it issued. -/
def _create_new_chat (newId : String) (now : Nat)
    (user_id persona_id first_message : String) : ChatSession × List StoreOp :=
  let title :=
    if first_message.length > 30 then String.mk (first_message.data.take 30) ++ "..."
    else first_message
  let new_session : ChatSession :=
    { id := some newId, user_id := user_id, title := title,
      persona_id := persona_id, last_updated := now }
  (new_session, [.insertSession new_session])

/-- router/chat.py `_save_message` (lines 79-89): builds a `MessageInDB` with
`parts = [content]` and inserts it. Returns the message and the write. -/
def _save_message (now : Nat) (session_id role content : String) :
    MessageInDB × List StoreOp :=
  let message : MessageInDB :=
    { session_id := session_id, role := role, parts := [content], timestamp := now }
  (message, [.insertMessage message])

/-- Behaviour of the external model stream (`generate_stream_response`,
utils/chatbot.py, not under the given sources; spec section 6: a finite lazy
sequence of chunks that may fail with a provider error): the chunks it yields,
and whether it raises an exception after yielding them. -/
structure StreamOutcome where
  chunks : List String
  failed : Bool
deriving DecidableEq

/-- Per-request environment: configuration and the behaviour of the external
collaborators for this request. `apiKey` is `os.getenv("GOOGLE_API_KEY")`,
`catalog` the keys of `PREDEFINED_CHARACTERS`, `newSessionId` the `_id` the
store assigns to a newly inserted session, `now` the clock, `outcome` the
behaviour of the model stream. -/
structure Env where
  apiKey : Option String
  catalog : List String
  newSessionId : String
  now : Nat
  outcome : StreamOutcome
deriving DecidableEq

/-- router/chat.py `stream_generator` (lines 149-175): forwards each upstream
chunk while accumulating `ai_response_full`; on normal completion with a
non-empty accumulator it saves one `model` message and touches the
`last_updated` of the session; if the upstream raises, the `except` branch yields a fixed
error chunk and issues no writes (the accumulated content is dropped).
Returns (chunks yielded to the caller, store writes issued). -/
def stream_generator (outcome : StreamOutcome) (now : Nat) (session_id : String) :
    List String × List StoreOp :=
  let ai_response_full := String.join outcome.chunks
  if outcome.failed then
    (outcome.chunks ++ ["An error occurred while processing your request."], [])
  else if ai_response_full = "" then
    (outcome.chunks, [])
  else
    let saved := _save_message now session_id "model" ai_response_full
    (outcome.chunks, saved.2 ++ [.touchSession session_id now])

/-- State reached at router/chat.py line 147, just before the stream starts:
the session, the resolved persona, the writes issued so far (session insert on
the new-chat path, then the user-message insert), and `chat_history` as passed
to `generate_stream_response` (prior messages plus the just-saved user
message). -/
structure SetupState where
  session : ChatSession
  persona_details : PersonaDetails
  preOps : List StoreOp
  chat_history : List MessageInDB
deriving DecidableEq

/-- router/chat.py `serve_streaming_chat`, lines 111-146 (the body of the
`try` block before the stream starts): routing between existing and new chat,
session fetch scoped to the user, persona resolution, history load, session
creation, and the user-message save. An `HTTPException` raised anywhere here is
the `.error` case. -/
def serve_setup (env : Env) (db : DB) (user_id : String) (payload : ChatRequest) :
    Except HTTPError SetupState := do
  let routed ←
    if truthy payload.session_id && ObjectId.is_valid (payload.session_id.getD "") then
      match db.chat_sessions.find? (fun s =>
          s.id == some (payload.session_id.getD "") && s.user_id == user_id) with
      | none => throw { status_code := 404, detail := "Chat session not found." }
      | some session => do
        let persona ← _get_persona_details env.catalog session.persona_id db
        let chat_history := sortByTimestamp
          (db.chat_messages.filter (fun m => m.session_id == payload.session_id.getD ""))
        pure (session, persona, ([] : List StoreOp), chat_history)
    else
      if !(truthy payload.persona_id) then
        throw { status_code := 400, detail := "persona_id is required for a new chat." }
      else do
        let persona ← _get_persona_details env.catalog (payload.persona_id.getD "") db
        let created := _create_new_chat env.newSessionId env.now user_id
          (payload.persona_id.getD "") payload.message
        pure (created.1, persona, created.2, ([] : List MessageInDB))
  let (session, persona, preOps, chat_history) := routed
  let saved := _save_message env.now (session.id.getD "") "user" payload.message
  pure { session := session, persona_details := persona,
         preOps := preOps ++ saved.2, chat_history := chat_history ++ [saved.1] }

/-- The response returned by POST /chat/stream, distinguishing the four
return points of the handler. -/
inductive Response where
  | configError (msg : String)
  | httpErrorStream (e : HTTPError)
  | authError (e : HTTPError)
  | stream (chunks : List String)
deriving DecidableEq

/-- Observable result of one POST /chat/stream request: the response, the store
writes in the order issued, and what was handed to the model (the in-memory
history and the resolved persona), when streaming was reached. -/
structure ServeResult where
  response : Response
  ops : List StoreOp
  historyToModel : Option (List MessageInDB)
  personaToModel : Option PersonaDetails
deriving DecidableEq

/-- router/chat.py `serve_streaming_chat` (lines 92-186): config check first;
then the `try` body (`serve_setup`); an `HTTPException` is caught by the outer
`except` and surfaced as a dedicated error stream; on success the
`stream_generator` runs and its writes follow the setup writes. -/
def serve_streaming_chat (env : Env) (db : DB) (user_id : String)
    (payload : ChatRequest) : ServeResult :=
  if truthy env.apiKey = false then
    { response := .configError "Configuration error: Server API key is missing.",
      ops := [], historyToModel := none, personaToModel := none }
  else
    match serve_setup env db user_id payload with
    | .error e =>
        { response := .httpErrorStream e, ops := [],
          historyToModel := none, personaToModel := none }
    | .ok st =>
        let session_id := st.session.id.getD ""
        let streamed := stream_generator env.outcome env.now session_id
        { response := .stream streamed.1,
          ops := st.preOps ++ streamed.2,
          historyToModel := some st.chat_history,
          personaToModel := some st.persona_details }

/-- Modelled from the spec: the Authentication Verifier collaborator
(`verify(bearer_token) -> user_id | fails(Unauthorized)`, spec section 6); it
is the `clerk_auth_guard` dependency from the external `fastapi_clerk_auth`
package, which rejects the request before the handler body runs. On rejection
the handler never executes, so no store write is issued. -/
def handle_chat_stream (env : Env) (db : DB) (auth : Except HTTPError String)
    (payload : ChatRequest) : ServeResult :=
  match auth with
  | .error e =>
      { response := .authError e, ops := [],
        historyToModel := none, personaToModel := none }
  | .ok user_id => serve_streaming_chat env db user_id payload

/-- router/chats.py `get_chat_session_messages` (lines 48-76): user check,
session-id format check, then a session lookup filtered by both `_id` and
`user_id`; a missing session and a session owned by another user both fall
into the same `find_one -> None` branch and raise the same 404. -/
def get_chat_session_messages (db : DB) (user_id : String) (session_id : String) :
    Except HTTPError (List MessageInDB) :=
  if user_id = "" then
    .error { status_code := 401, detail := "User ID not found" }
  else if !(ObjectId.is_valid session_id) then
    .error { status_code := 400, detail := "Invalid session ID format" }
  else
    match db.chat_sessions.find? (fun s =>
        s.id == some session_id && s.user_id == user_id) with
    | none =>
        .error { status_code := 404,
                 detail := "Chat session not found or you do not have permission to access it" }
    | some _ =>
        .ok (sortByTimestamp
          (db.chat_messages.filter (fun m => m.session_id == session_id)))

/-- models/chat.py `CreatePersonaRequest` (lines 50-54): the request body of
POST /personas. Its pydantic fields are `name`, `description`, `tone`,
`is_public`, plus `id` inherited from `MongoBaseModel`. -/
structure CreatePersonaRequest where
  id : Option String := none
  name : String
  description : String
  tone : String
  is_public : Bool := false
deriving DecidableEq

/-- The attribute names defined on `CreatePersonaRequest` (models/chat.py
lines 50-54 plus the inherited `id`). -/
def CreatePersonaRequest.fields : List String :=
  ["id", "name", "description", "tone", "is_public"]

/-- An exception escaping the create-persona handler: either an
`HTTPException` it raises itself, or a Python `AttributeError` from reading an
attribute that the pydantic model does not define. -/
inductive PyError where
  | httpError (e : HTTPError)
  | attributeError (attr : String)
deriving DecidableEq

/-- Python attribute access on a `CreatePersonaRequest` instance: raises
`AttributeError` when the attribute is not a field of the model. -/
def CreatePersonaRequest.readAttr (attr : String) : Except PyError Unit :=
  if attr ∈ CreatePersonaRequest.fields then .ok ()
  else .error (.attributeError attr)

/-- router/personas.py `create_persona` (lines 31-66): after the user check,
the `PersonaInDB(...)` call evaluates its keyword arguments in source order,
reading `persona_data.name`, `.description`, `.tone`, `.is_public`, then
`.greeting`, `.relationship`, `.forbidden_topics`; the last three are not
fields of `CreatePersonaRequest`, so the first of them raises. Only if all
reads succeeded would the document be inserted. -/
def create_persona (db : DB) (newId : String) (now : Nat) (user_id : String)
    (persona_data : CreatePersonaRequest) : Except PyError (DB × PersonaInDB) := do
  if user_id = "" then
    throw (.httpError { status_code := 401, detail := "User ID not found" })
  let _ ← CreatePersonaRequest.readAttr "name"
  let _ ← CreatePersonaRequest.readAttr "description"
  let _ ← CreatePersonaRequest.readAttr "tone"
  let _ ← CreatePersonaRequest.readAttr "is_public"
  let _ ← CreatePersonaRequest.readAttr "greeting"
  let _ ← CreatePersonaRequest.readAttr "relationship"
  let _ ← CreatePersonaRequest.readAttr "forbidden_topics"
  let new_persona : PersonaInDB :=
    { id := some newId, user_id := user_id, name := persona_data.name,
      description := persona_data.description, tone := persona_data.tone,
      is_public := persona_data.is_public, created_at := now }
  pure ({ db with personas := db.personas ++ [new_persona] }, new_persona)

/-- The personas collection as left by one POST /personas request: unchanged
when the handler raises. -/
def create_persona_final_db (db : DB) (newId : String) (now : Nat)
    (user_id : String) (persona_data : CreatePersonaRequest) : DB :=
  match create_persona db newId now user_id persona_data with
  | .ok r => r.1
  | .error _ => db

/-! Concrete values used by witnesses and counterexamples. -/

/-- A structurally valid store identifier (24 hex characters). -/
def oid1 : String := "aaaaaaaaaaaaaaaaaaaaaaaa"

/-- A second structurally valid store identifier. -/
def oid2 : String := "bbbbbbbbbbbbbbbbbbbbbbbb"

/-- An empty document store. -/
def emptyDB : DB := { personas := [], chat_sessions := [], chat_messages := [] }

/-- A non-public custom persona owned by userA. -/
def personaA : PersonaInDB :=
  { id := some oid1, user_id := "userA", name := "Luna", description := "d",
    tone := "t", is_public := false, created_at := 0 }

/-- A store holding only `personaA`. -/
def dbPersonaA : DB :=
  { personas := [personaA], chat_sessions := [], chat_messages := [] }

/-! Theorems -/

/-- C4: session creation derives the title by truncate-then-suffix: a first
message of length at most 30 is stored verbatim as the title (same length);
a longer one is stored as its first 30 characters followed by "...", giving a
title of length exactly 33. -/
theorem title_truncation (newId : String) (now : Nat)
    (user_id persona_id msg : String) :
    (_create_new_chat newId now user_id persona_id msg).1.title =
      (if msg.length ≤ 30 then msg else String.mk (msg.data.take 30) ++ "...") ∧
    (_create_new_chat newId now user_id persona_id msg).1.title.length =
      (if msg.length ≤ 30 then msg.length else 33) := by
  by_cases h : msg.length ≤ 30
  · have h2 : ¬ (msg.length > 30) := by omega
    simp [_create_new_chat, h, h2]
  · have h2 : msg.length > 30 := by omega
    have hd : msg.data.length > 30 := h2
    have hl : (String.mk (msg.data.take 30) ++ "...").length = 33 := by
      rw [String.length_append]
      have e1 : (String.mk (msg.data.take 30)).length = (msg.data.take 30).length := rfl
      have e2 : ("..." : String).length = 3 := rfl
      rw [e1, e2, List.length_take]
      omega
    simp [_create_new_chat, h, h2, hl]

/-- C10: when the model API key configuration is absent (or empty), the
endpoint returns the fixed configuration-error stream and issues no store
writes, leaving the store unchanged. -/
theorem missing_api_key_config_error (env : Env) (db : DB) (uid : String)
    (payload : ChatRequest) (h : truthy env.apiKey = false) :
    serve_streaming_chat env db uid payload =
      { response := .configError "Configuration error: Server API key is missing.",
        ops := [], historyToModel := none, personaToModel := none } ∧
    applyOps db (serve_streaming_chat env db uid payload).ops = db := by
  unfold serve_streaming_chat
  rw [if_pos h]
  exact ⟨rfl, rfl⟩

/-- Witness for C10 at a concrete request with no API key configured. -/
theorem missing_api_key_config_error_witness :
    truthy (Env.mk none [] "x" 0 ⟨[], false⟩).apiKey = false ∧
    serve_streaming_chat (Env.mk none [] "x" 0 ⟨[], false⟩) emptyDB
        "u" (ChatRequest.mk "m" none none) =
      { response := .configError "Configuration error: Server API key is missing.",
        ops := [], historyToModel := none, personaToModel := none } :=
  ⟨rfl, (missing_api_key_config_error (Env.mk none [] "x" 0 ⟨[], false⟩)
    emptyDB "u" (ChatRequest.mk "m" none none) rfl).1⟩

/-- C9: for every authenticated request, create_persona raises AttributeError
on reading `greeting` from the request model (which does not define it) before
any insert, so the personas collection is unchanged. -/
theorem create_persona_always_fails (db : DB) (newId : String) (now : Nat)
    (uid : String) (req : CreatePersonaRequest) (h : uid ≠ "") :
    create_persona db newId now uid req = .error (.attributeError "greeting") ∧
    create_persona_final_db db newId now uid req = db := by
  have h1 : create_persona db newId now uid req = .error (.attributeError "greeting") := by
    unfold create_persona
    simp only [if_neg h]
    rfl
  refine ⟨h1, ?_⟩
  unfold create_persona_final_db
  rw [h1]

/-- Witness for C9 at a concrete authenticated request. -/
theorem create_persona_always_fails_witness :
    ("u" : String) ≠ "" ∧
    (create_persona emptyDB "n" 0 "u" { name := "a", description := "b", tone := "c" }
        = .error (.attributeError "greeting") ∧
      create_persona_final_db emptyDB "n" 0 "u"
        { name := "a", description := "b", tone := "c" } = emptyDB) :=
  ⟨by decide, create_persona_always_fails emptyDB "n" 0 "u"
    { name := "a", description := "b", tone := "c" } (by decide)⟩

/-- C7: the last_updated field of the session is touched only after a non-empty model
message was persisted: a stream ending with an empty accumulator issues no
writes at all, and any touch write is preceded in the write sequence by the
insert of the non-empty model message. -/
theorem touch_only_after_model_persisted (outcome : StreamOutcome) (now : Nat)
    (sid : String) :
    (String.join outcome.chunks = "" → (stream_generator outcome now sid).2 = []) ∧
    (∀ i : Nat, ((stream_generator outcome now sid).2)[i]? = some (.touchSession sid now) →
      String.join outcome.chunks ≠ "" ∧ ∃ j : Nat, j < i ∧
        ((stream_generator outcome now sid).2)[j]? =
          some (.insertMessage { session_id := sid, role := "model",
                                 parts := [String.join outcome.chunks], timestamp := now })) := by
  obtain ⟨chunks, failed⟩ := outcome
  cases failed
  case true =>
    refine ⟨fun _ => rfl, fun i hi => ?_⟩
    have h0 : (stream_generator ⟨chunks, true⟩ now sid).2 = [] := rfl
    rw [h0] at hi
    simp at hi
  case false =>
    by_cases hjoin : String.join chunks = ""
    · have h0 : (stream_generator ⟨chunks, false⟩ now sid).2 = [] := by
        unfold stream_generator
        simp [hjoin]
      refine ⟨fun _ => h0, fun i hi => ?_⟩
      rw [h0] at hi
      simp at hi
    · have h2 : (stream_generator ⟨chunks, false⟩ now sid).2 =
          [StoreOp.insertMessage
              { session_id := sid, role := "model", parts := [String.join chunks],
                timestamp := now },
            StoreOp.touchSession sid now] := by
        unfold stream_generator _save_message
        simp [hjoin]
      refine ⟨fun hc => absurd hc hjoin, fun i hi => ?_⟩
      rw [h2] at hi
      refine ⟨hjoin, ?_⟩
      match i with
      | 0 => simp at hi
      | 1 => exact ⟨0, by omega, by rw [h2]; rfl⟩
      | n + 2 => simp at hi

/-- Witness for C7 at a concrete empty stream. -/
theorem touch_only_after_model_persisted_witness :
    String.join ([] : List String) = "" ∧
    (stream_generator ⟨[], false⟩ 3 "s").2 = [] :=
  ⟨rfl, (touch_only_after_model_persisted ⟨[], false⟩ 3 "s").1 rfl⟩

/-- C8 (amended): _get_persona_details performs no ownership or visibility
check: a stored custom persona resolves successfully whenever its record
exists, with no condition on `is_public` or on the owner. -/
theorem persona_resolution_no_ownership_check (catalog : List String)
    (pid : String) (db : DB) (p : PersonaInDB)
    (hcat : pid ∉ catalog)
    (hvalid : ObjectId.is_valid pid = true)
    (hfind : db.personas.find? (fun q => q.id == some pid) = some p) :
    _get_persona_details catalog pid db = .ok (.custom p) := by
  have hne : pid ≠ "" := by
    intro he
    rw [he] at hvalid
    exact absurd hvalid (by decide)
  unfold _get_persona_details
  rw [if_neg hne]
  simp [hcat, hvalid, hfind]

/-- Witness for the amended C8 theorem: `personaA` is non-public and owned by
userA, yet resolves for anyone. -/
theorem persona_resolution_no_ownership_check_witness :
    (oid1 ∉ ([] : List String) ∧
      ObjectId.is_valid oid1 = true ∧
      dbPersonaA.personas.find? (fun q => q.id == some oid1) = some personaA) ∧
    _get_persona_details [] oid1 dbPersonaA = .ok (.custom personaA) :=
  ⟨⟨by decide, by decide, by decide⟩,
    persona_resolution_no_ownership_check [] oid1 dbPersonaA personaA
      (by decide) (by decide) (by decide)⟩

/-- C8 (counterexample to the claim as stated): the non-public custom persona
`personaA` owned by userA is resolved for requester userB and handed to the
model, so resolution does not require the persona to be public or owned by the
requesting user. -/
theorem persona_ownership_cex :
    personaA.is_public = false ∧ personaA.user_id ≠ "userB" ∧
    _get_persona_details [] oid1 dbPersonaA = .ok (.custom personaA) ∧
    (serve_streaming_chat
       (Env.mk (some "k") [] oid2 0 ⟨["hi"], false⟩)
       dbPersonaA "userB"
       (ChatRequest.mk "m" none (some oid1))).personaToModel
      = some (.custom personaA) := by decide


/-- C5 helper: resolution of a structurally valid but unknown persona id fails
with the 404. -/
theorem get_persona_details_notfound (catalog : List String) (pid : String) (db : DB)
    (hcat : pid ∉ catalog)
    (hvalid : ObjectId.is_valid pid = true)
    (hfind : db.personas.find? (fun q => q.id == some pid) = none) :
    _get_persona_details catalog pid db =
      .error { status_code := 404, detail := "Custom persona not found." } := by
  have hne : pid ≠ "" := by
    intro he
    rw [he] at hvalid
    exact absurd hvalid (by decide)
  unfold _get_persona_details
  rw [if_neg hne]
  simp [hcat, hvalid, hfind]

/-- C5: a new-chat request whose persona id matches no catalog entry and no
store record fails with the persona NotFound error before the session is
created: no store write is issued and the store is unchanged. -/
theorem unknown_persona_notfound_no_session (env : Env) (db : DB)
    (uid msg pid : String)
    (hk : truthy env.apiKey = true)
    (hcat : pid ∉ env.catalog)
    (hvalid : ObjectId.is_valid pid = true)
    (hfind : db.personas.find? (fun q => q.id == some pid) = none) :
    serve_streaming_chat env db uid
        { message := msg, session_id := none, persona_id := some pid } =
      { response := .httpErrorStream
          { status_code := 404, detail := "Custom persona not found." },
        ops := [], historyToModel := none, personaToModel := none } ∧
    applyOps db (serve_streaming_chat env db uid
        { message := msg, session_id := none, persona_id := some pid }).ops = db := by
  have hne : pid ≠ "" := by
    intro he
    rw [he] at hvalid
    exact absurd hvalid (by decide)
  have hp := get_persona_details_notfound env.catalog pid db hcat hvalid hfind
  have hsetup : serve_setup env db uid
      { message := msg, session_id := none, persona_id := some pid } =
      .error { status_code := 404, detail := "Custom persona not found." } := by
    unfold serve_setup
    simp [truthy, hne, hp, Bind.bind, Except.bind]
  have hserve : serve_streaming_chat env db uid
      { message := msg, session_id := none, persona_id := some pid } =
      { response := .httpErrorStream
          { status_code := 404, detail := "Custom persona not found." },
        ops := [], historyToModel := none, personaToModel := none } := by
    unfold serve_streaming_chat
    rw [if_neg (by simp [hk]), hsetup]
  exact ⟨hserve, by rw [hserve]; rfl⟩


/-- Witness for C5 at a concrete unknown-but-valid persona id. -/
theorem unknown_persona_notfound_no_session_witness :
    (truthy (Env.mk (some "k") ["mochi"] "x" 0 ⟨[], false⟩).apiKey = true ∧
      oid1 ∉ (Env.mk (some "k") ["mochi"] "x" 0 ⟨[], false⟩).catalog ∧
      ObjectId.is_valid oid1 = true ∧
      emptyDB.personas.find? (fun q => q.id == some oid1) = none) ∧
    serve_streaming_chat (Env.mk (some "k") ["mochi"] "x" 0 ⟨[], false⟩) emptyDB "u"
        { message := "m", session_id := none, persona_id := some oid1 } =
      { response := .httpErrorStream
          { status_code := 404, detail := "Custom persona not found." },
        ops := [], historyToModel := none, personaToModel := none } :=
  ⟨⟨by decide, by decide, by decide, by decide⟩,
    (unknown_persona_notfound_no_session (Env.mk (some "k") ["mochi"] "x" 0 ⟨[], false⟩)
      emptyDB "u" "m" oid1 (by decide) (by decide) (by decide) (by decide)).1⟩

/-- C6: the per-user session fetch of GET /chats/id/messages responds with the
same NotFound error whether the session is absent or owned by a different
user, and messages are only ever returned to the owner. -/
theorem session_fetch_owner_scoped (db : DB) (uid sid : String)
    (huid : uid ≠ "") (hvalid : ObjectId.is_valid sid = true) :
    ((∀ s ∈ db.chat_sessions, s.id ≠ some sid) →
      get_chat_session_messages db uid sid =
        .error { status_code := 404, detail := "Chat session not found or you do not have permission to access it" }) ∧
    ((∀ s ∈ db.chat_sessions, s.id = some sid → s.user_id ≠ uid) →
      get_chat_session_messages db uid sid =
        .error { status_code := 404, detail := "Chat session not found or you do not have permission to access it" }) ∧
    (∀ msgs, get_chat_session_messages db uid sid = .ok msgs →
      ∃ s ∈ db.chat_sessions, s.id = some sid ∧ s.user_id = uid) := by
  refine ⟨?_, ?_, ?_⟩
  · intro habs
    have hfind : db.chat_sessions.find?
        (fun s => s.id == some sid && s.user_id == uid) = none := by
      rw [List.find?_eq_none]
      intro s hs
      simp only [Bool.and_eq_true, beq_iff_eq, not_and]
      intro hid
      exact absurd hid (habs s hs)
    unfold get_chat_session_messages
    rw [if_neg huid]
    simp [hvalid, hfind]
  · intro hown
    have hfind : db.chat_sessions.find?
        (fun s => s.id == some sid && s.user_id == uid) = none := by
      rw [List.find?_eq_none]
      intro s hs
      simp only [Bool.and_eq_true, beq_iff_eq, not_and]
      exact hown s hs
    unfold get_chat_session_messages
    rw [if_neg huid]
    simp [hvalid, hfind]
  · intro msgs hok
    unfold get_chat_session_messages at hok
    rw [if_neg huid] at hok
    simp only [hvalid] at hok
    cases hfind : db.chat_sessions.find?
        (fun s => s.id == some sid && s.user_id == uid) with
    | none => rw [hfind] at hok; simp at hok
    | some s =>
      have hmem := List.mem_of_find?_eq_some hfind
      have hp := List.find?_some hfind
      simp only [Bool.and_eq_true, beq_iff_eq] at hp
      exact ⟨s, hmem, hp.1, hp.2⟩


/-- A session owned by user A. -/
def sessionA : ChatSession :=
  { id := some oid1, user_id := "A", title := "t", persona_id := "mochi",
    last_updated := 0 }

/-- A store holding only `sessionA`. -/
def dbSessionA : DB :=
  { personas := [], chat_sessions := [sessionA], chat_messages := [] }

/-- Witness for C6: user B fetching the session of user A gets the same 404 as for
a missing session. -/
theorem session_fetch_owner_scoped_witness :
    (("B" : String) ≠ "" ∧ ObjectId.is_valid oid1 = true ∧
      (∀ s ∈ dbSessionA.chat_sessions, s.id = some oid1 → s.user_id ≠ "B")) ∧
    get_chat_session_messages dbSessionA "B" oid1 =
      .error { status_code := 404, detail := "Chat session not found or you do not have permission to access it" } :=
  ⟨⟨by decide, by decide, by decide⟩,
    (session_fetch_owner_scoped dbSessionA "B" oid1 (by decide) (by decide)).2.1
      (by decide)⟩

/-- C2: every pre-stream validation failure (missing persona for a new chat,
malformed persona id, session not found, and the rejected-authentication case)
produces a dedicated error response distinct from a content stream, with no
store write issued — so no orphan session and no orphan message. -/
theorem prestream_validation_abort (env : Env) (db : DB) (uid : String)
    (hk : truthy env.apiKey = true) :
    (∀ msg, serve_streaming_chat env db uid
        { message := msg, session_id := none, persona_id := none } =
      { response := .httpErrorStream
          { status_code := 400, detail := "persona_id is required for a new chat." },
        ops := [], historyToModel := none, personaToModel := none }) ∧
    (∀ msg pid, pid ∉ env.catalog → pid ≠ "" → ObjectId.is_valid pid = false →
      serve_streaming_chat env db uid
          { message := msg, session_id := none, persona_id := some pid } =
      { response := .httpErrorStream
          { status_code := 400, detail := "Invalid custom persona ID format." },
        ops := [], historyToModel := none, personaToModel := none }) ∧
    (∀ msg sid popt, ObjectId.is_valid sid = true →
      db.chat_sessions.find? (fun s => s.id == some sid && s.user_id == uid) = none →
      serve_streaming_chat env db uid
          { message := msg, session_id := some sid, persona_id := popt } =
      { response := .httpErrorStream
          { status_code := 404, detail := "Chat session not found." },
        ops := [], historyToModel := none, personaToModel := none }) ∧
    (∀ e payload, handle_chat_stream env db (.error e) payload =
      { response := .authError e, ops := [],
        historyToModel := none, personaToModel := none }) := by
  have hknf : ¬ (truthy env.apiKey = false) := by simp [hk]
  refine ⟨?_, ?_, ?_, fun e payload => rfl⟩
  · intro msg
    have hsetup : serve_setup env db uid
        { message := msg, session_id := none, persona_id := none } =
        .error { status_code := 400, detail := "persona_id is required for a new chat." } := by
      unfold serve_setup
      simp [truthy, Bind.bind, Except.bind]
    unfold serve_streaming_chat
    rw [if_neg hknf, hsetup]
  · intro msg pid hcat hne hinvalid
    have hp : _get_persona_details env.catalog pid db =
        .error { status_code := 400, detail := "Invalid custom persona ID format." } := by
      unfold _get_persona_details
      rw [if_neg hne]
      simp [hcat, hinvalid]
    have hsetup : serve_setup env db uid
        { message := msg, session_id := none, persona_id := some pid } =
        .error { status_code := 400, detail := "Invalid custom persona ID format." } := by
      unfold serve_setup
      simp [truthy, hne, hp, Bind.bind, Except.bind]
    unfold serve_streaming_chat
    rw [if_neg hknf, hsetup]
  · intro msg sid popt hvalid hfind
    have hne : sid ≠ "" := by
      intro he
      rw [he] at hvalid
      exact absurd hvalid (by decide)
    have hsetup : serve_setup env db uid
        { message := msg, session_id := some sid, persona_id := popt } =
        .error { status_code := 404, detail := "Chat session not found." } := by
      unfold serve_setup
      simp [truthy, hne, hvalid, hfind, Bind.bind, Except.bind]
    unfold serve_streaming_chat
    rw [if_neg hknf, hsetup]

/-- Witness for C2 at a concrete new-chat request with no persona id. -/
theorem prestream_validation_abort_witness :
    truthy (Env.mk (some "k") ["mochi"] "x" 0 ⟨[], false⟩).apiKey = true ∧
    serve_streaming_chat (Env.mk (some "k") ["mochi"] "x" 0 ⟨[], false⟩) emptyDB "u"
        { message := "hi", session_id := none, persona_id := none } =
      { response := .httpErrorStream
          { status_code := 400, detail := "persona_id is required for a new chat." },
        ops := [], historyToModel := none, personaToModel := none } :=
  ⟨by decide,
    (prestream_validation_abort (Env.mk (some "k") ["mochi"] "x" 0 ⟨[], false⟩)
      emptyDB "u" (by decide)).1 "hi"⟩


/-- The user message document saved for a request: role `user`, one part
holding the request text, saved under the id of the session. -/
def userMsgOf (env : Env) (payload : ChatRequest) (session : ChatSession) : MessageInDB :=
  { session_id := session.id.getD "", role := "user",
    parts := [payload.message], timestamp := env.now }

/-- Structure of a successful setup: the writes are an optional session insert
(new-chat path only) followed by exactly the user-message insert, and the
history handed to the model ends with that same user message. -/
theorem serve_setup_shape (env : Env) (db : DB) (uid : String)
    (payload : ChatRequest) (st : SetupState)
    (h : serve_setup env db uid payload = .ok st) :
    ∃ pre h0,
      (pre = [] ∨ pre = [StoreOp.insertSession st.session]) ∧
      st.preOps = pre ++ [StoreOp.insertMessage (userMsgOf env payload st.session)] ∧
      st.chat_history = h0 ++ [userMsgOf env payload st.session] := by
  unfold serve_setup at h
  by_cases hroute : (truthy payload.session_id &&
      ObjectId.is_valid (payload.session_id.getD "")) = true
  · rw [if_pos hroute] at h
    cases hfind : db.chat_sessions.find? (fun s =>
        s.id == some (payload.session_id.getD "") && s.user_id == uid) with
    | none =>
      rw [hfind] at h
      simp [Bind.bind, Except.bind, throw, throwThe, MonadExceptOf.throw] at h
    | some session =>
      rw [hfind] at h
      dsimp only at h
      cases hp : _get_persona_details env.catalog session.persona_id db with
      | error e =>
        rw [hp] at h
        simp [Bind.bind, Except.bind] at h
      | ok persona =>
        rw [hp] at h
        simp only [Bind.bind, Except.bind, pure, Except.pure, _save_message] at h
        cases h
        exact ⟨[], _, Or.inl rfl, rfl, rfl⟩
  · rw [if_neg hroute] at h
    by_cases hpid : (!(truthy payload.persona_id)) = true
    · rw [if_pos hpid] at h
      simp [Bind.bind, Except.bind, throw, throwThe, MonadExceptOf.throw] at h
    · rw [if_neg hpid] at h
      cases hp : _get_persona_details env.catalog (payload.persona_id.getD "") db with
      | error e =>
        rw [hp] at h
        simp [Bind.bind, Except.bind] at h
      | ok persona =>
        rw [hp] at h
        simp only [Bind.bind, Except.bind, pure, Except.pure, _save_message,
          _create_new_chat] at h
        cases h
        exact ⟨[StoreOp.insertSession _], _, Or.inr rfl, rfl, rfl⟩


/-- Does this write insert a model-role message? -/
def opIsModelInsert : StoreOp → Bool
  | .insertMessage m => m.role == "model"
  | _ => false

/-- Environment of the C1 scenario: the model stream yields two chunks and
then raises. -/
def envC1 : Env := Env.mk (some "k") ["mochi"] oid2 5 ⟨["Hel", "lo"], true⟩

/-- C1 (counterexample to the claim as stated): the stream fails after
producing two chunks, yet no model-role message is persisted — the partial
content is dropped and only an error sentinel chunk follows the forwarded
chunks. -/
theorem partial_failure_cex :
    envC1.outcome.chunks ≠ [] ∧ envC1.outcome.failed = true ∧
    (serve_streaming_chat envC1 emptyDB "u1"
        (ChatRequest.mk "hi" none (some "mochi"))).response
      = .stream ["Hel", "lo", "An error occurred while processing your request."] ∧
    ((applyOps emptyDB (serve_streaming_chat envC1 emptyDB "u1"
        (ChatRequest.mk "hi" none (some "mochi"))).ops).chat_messages.filter
      (fun m => m.role == "model")).length = 0 := by decide

/-- C1 (amended): when the model stream fails after producing chunks, the
exchange forwards those chunks followed by a fixed error chunk, and persists
no model-role message: the accumulated partial content is discarded. -/
theorem partial_failure_drops_content (env : Env) (db : DB) (uid : String)
    (payload : ChatRequest) (cs : List String)
    (hfail : env.outcome.failed = true)
    (hchunks : env.outcome.chunks ≠ [])
    (hstream : (serve_streaming_chat env db uid payload).response = .stream cs) :
    cs = env.outcome.chunks ++ ["An error occurred while processing your request."] ∧
    (serve_streaming_chat env db uid payload).ops.all
      (fun op => !(opIsModelInsert op)) = true := by
  unfold serve_streaming_chat at hstream ⊢
  by_cases hk : truthy env.apiKey = false
  · rw [if_pos hk] at hstream
    simp at hstream
  · rw [if_neg hk] at hstream
    rw [if_neg hk]
    cases hsetup : serve_setup env db uid payload with
    | error e =>
      rw [hsetup] at hstream
      simp at hstream
    | ok st =>
      rw [hsetup] at hstream
      dsimp only at hstream ⊢
      have hsg : stream_generator env.outcome env.now (st.session.id.getD "") =
          (env.outcome.chunks ++ ["An error occurred while processing your request."],
            []) := by
        unfold stream_generator
        rw [if_pos hfail]
      rw [hsg] at hstream ⊢
      refine ⟨by injection hstream with h1; exact h1.symm, ?_⟩
      obtain ⟨pre, h0, hpre, hops, hhist⟩ :=
        serve_setup_shape env db uid payload st hsetup
      rw [hops]
      rcases hpre with rfl | rfl
      · simp [opIsModelInsert, userMsgOf]
      · simp [opIsModelInsert, userMsgOf]

/-- Witness for the amended C1 theorem at the concrete C1 scenario. -/
theorem partial_failure_drops_content_witness :
    (envC1.outcome.failed = true ∧ envC1.outcome.chunks ≠ [] ∧
      (serve_streaming_chat envC1 emptyDB "u1"
          (ChatRequest.mk "hi" none (some "mochi"))).response
        = .stream ["Hel", "lo", "An error occurred while processing your request."]) ∧
    (["Hel", "lo", "An error occurred while processing your request."]
        = envC1.outcome.chunks ++ ["An error occurred while processing your request."] ∧
      (serve_streaming_chat envC1 emptyDB "u1"
          (ChatRequest.mk "hi" none (some "mochi"))).ops.all
        (fun op => !(opIsModelInsert op)) = true) :=
  ⟨⟨by decide, by decide, by decide⟩,
    partial_failure_drops_content envC1 emptyDB "u1"
      (ChatRequest.mk "hi" none (some "mochi"))
      ["Hel", "lo", "An error occurred while processing your request."]
      (by decide) (by decide) (by decide)⟩


/-- Number of model-role messages stored for a session. -/
def modelCount (db : DB) (sid : String) : Nat :=
  (db.chat_messages.filter (fun m => m.session_id == sid && m.role == "model")).length

/-- Number of user-role messages stored for a session. -/
def userCount (db : DB) (sid : String) : Nat :=
  (db.chat_messages.filter (fun m => m.session_id == sid && m.role == "user")).length

theorem modelCount_insertSession (db : DB) (sid : String) (s : ChatSession) :
    modelCount (applyOp db (.insertSession s)) sid = modelCount db sid := rfl

theorem userCount_insertSession (db : DB) (sid : String) (s : ChatSession) :
    userCount (applyOp db (.insertSession s)) sid = userCount db sid := rfl

theorem modelCount_touch (db : DB) (sid sid2 : String) (now : Nat) :
    modelCount (applyOp db (.touchSession sid2 now)) sid = modelCount db sid := rfl

theorem userCount_touch (db : DB) (sid sid2 : String) (now : Nat) :
    userCount (applyOp db (.touchSession sid2 now)) sid = userCount db sid := rfl

theorem modelCount_insertMessage (db : DB) (sid : String) (m : MessageInDB) :
    modelCount (applyOp db (.insertMessage m)) sid =
      modelCount db sid + (if m.session_id == sid && m.role == "model" then 1 else 0) := by
  unfold modelCount applyOp
  rw [List.filter_append, List.length_append]
  by_cases hp : (m.session_id == sid && m.role == "model") = true
  · simp [hp]
  · simp [List.filter, hp]

theorem userCount_insertMessage (db : DB) (sid : String) (m : MessageInDB) :
    userCount (applyOp db (.insertMessage m)) sid =
      userCount db sid + (if m.session_id == sid && m.role == "user" then 1 else 0) := by
  unfold userCount applyOp
  rw [List.filter_append, List.length_append]
  by_cases hp : (m.session_id == sid && m.role == "user") = true
  · simp [hp]
  · simp [List.filter, hp]

/-- The writes of one stream are either nothing, or exactly a model-message
insert followed by the session touch. -/
theorem stream_generator_ops_shape (outcome : StreamOutcome) (now : Nat)
    (sid : String) :
    (stream_generator outcome now sid).2 = [] ∨
    (stream_generator outcome now sid).2 =
      [StoreOp.insertMessage
          (MessageInDB.mk none sid "model" [String.join outcome.chunks] now),
        StoreOp.touchSession sid now] := by
  obtain ⟨chunks, failed⟩ := outcome
  cases failed
  case true => exact Or.inl rfl
  case false =>
    by_cases hjoin : String.join chunks = ""
    · exact Or.inl (by unfold stream_generator; simp [hjoin])
    · refine Or.inr ?_
      unfold stream_generator _save_message
      simp [hjoin]


/-- C3: whenever streaming is reached, the history handed to the model ends
with the just-saved user message; the write sequence is an optional session
insert, then the user-message insert, then the stream writes (where any
model-message insert lives); and at every prefix of the write sequence the
number of model messages added for the session never exceeds the number of
user messages added — an observer never sees the model message of the exchange
without its preceding user message. -/
theorem user_before_model_ordering (env : Env) (db : DB) (uid : String)
    (payload : ChatRequest) (hist : List MessageInDB)
    (hs : (serve_streaming_chat env db uid payload).historyToModel = some hist) :
    ∃ sid pre h0,
      hist = h0 ++ [MessageInDB.mk none sid "user" [payload.message] env.now] ∧
      (pre = [] ∨ ∃ s, pre = [StoreOp.insertSession s]) ∧
      (serve_streaming_chat env db uid payload).ops =
        pre ++ [StoreOp.insertMessage
            (MessageInDB.mk none sid "user" [payload.message] env.now)]
          ++ (stream_generator env.outcome env.now sid).2 ∧
      (∀ n : Nat,
        modelCount (applyOps db (((serve_streaming_chat env db uid payload).ops).take n)) sid
            + userCount db sid
          ≤ userCount (applyOps db (((serve_streaming_chat env db uid payload).ops).take n)) sid
            + modelCount db sid) := by
  unfold serve_streaming_chat at hs ⊢
  by_cases hk : truthy env.apiKey = false
  · rw [if_pos hk] at hs
    simp at hs
  · rw [if_neg hk] at hs ⊢
    cases hsetup : serve_setup env db uid payload with
    | error e =>
      rw [hsetup] at hs
      simp at hs
    | ok st =>
      rw [hsetup] at hs
      dsimp only at hs ⊢
      obtain ⟨pre, h0, hpre, hops, hhist⟩ := serve_setup_shape env db uid payload st hsetup
      have hhist2 : hist = st.chat_history := by
        injection hs with h1
        exact h1.symm
      refine ⟨st.session.id.getD "", pre, h0, ?_, ?_, ?_, ?_⟩
      · rw [hhist2, hhist]
        rfl
      · rcases hpre with rfl | rfl
        · exact Or.inl rfl
        · exact Or.inr ⟨st.session, rfl⟩
      · rw [hops]
        rfl
      · intro n
        rw [hops]
        rcases stream_generator_ops_shape env.outcome env.now (st.session.id.getD "")
          with htail | htail <;>
          rw [htail] <;>
          rcases hpre with rfl | rfl
        · -- pre = [], tail = []
          match n with
          | 0 => simp [applyOps] <;> omega
          | n + 1 =>
            rw [List.take_of_length_le (by simp)]
            simp [applyOps, userMsgOf, modelCount_insertMessage,
              userCount_insertMessage] <;> omega
        · -- pre = [insertSession], tail = []
          match n with
          | 0 => simp [applyOps] <;> omega
          | 1 =>
            simp [applyOps, modelCount_insertSession, userCount_insertSession] <;> omega
          | n + 2 =>
            rw [List.take_of_length_le (by simp)]
            simp [applyOps, userMsgOf, modelCount_insertSession, userCount_insertSession,
              modelCount_insertMessage, userCount_insertMessage] <;> omega
        · -- pre = [], tail = [model insert, touch]
          match n with
          | 0 => simp [applyOps] <;> omega
          | 1 =>
            simp [applyOps, userMsgOf, modelCount_insertMessage,
              userCount_insertMessage] <;> omega
          | 2 =>
            simp [applyOps, userMsgOf, modelCount_insertMessage,
              userCount_insertMessage] <;> omega
          | n + 3 =>
            rw [List.take_of_length_le (by simp)]
            simp [applyOps, userMsgOf, modelCount_insertMessage, userCount_insertMessage,
              modelCount_touch, userCount_touch] <;> omega
        · -- pre = [insertSession], tail = [model insert, touch]
          match n with
          | 0 => simp [applyOps] <;> omega
          | 1 =>
            simp [applyOps, modelCount_insertSession, userCount_insertSession] <;> omega
          | 2 =>
            simp [applyOps, userMsgOf, modelCount_insertSession, userCount_insertSession,
              modelCount_insertMessage, userCount_insertMessage] <;> omega
          | 3 =>
            simp [applyOps, userMsgOf, modelCount_insertSession, userCount_insertSession,
              modelCount_insertMessage, userCount_insertMessage] <;> omega
          | n + 4 =>
            rw [List.take_of_length_le (by simp)]
            simp [applyOps, userMsgOf, modelCount_insertSession, userCount_insertSession,
              modelCount_insertMessage, userCount_insertMessage,
              modelCount_touch, userCount_touch] <;> omega


/-- Environment of the C3 witness scenario: a successful two-chunk stream. -/
def envC3 : Env := Env.mk (some "k") ["mochi"] oid2 5 ⟨["I am", " here."], false⟩

/-- Witness for C3 at a concrete successful new-chat exchange. -/
theorem user_before_model_ordering_witness :
    (serve_streaming_chat envC3 emptyDB "u1"
        (ChatRequest.mk "hi" none (some "mochi"))).historyToModel
      = some [MessageInDB.mk none oid2 "user" ["hi"] 5] ∧
    (∃ sid pre h0,
      [MessageInDB.mk none oid2 "user" ["hi"] 5]
          = h0 ++ [MessageInDB.mk none sid "user" ["hi"] 5] ∧
      (pre = [] ∨ ∃ s, pre = [StoreOp.insertSession s]) ∧
      (serve_streaming_chat envC3 emptyDB "u1"
          (ChatRequest.mk "hi" none (some "mochi"))).ops =
        pre ++ [StoreOp.insertMessage (MessageInDB.mk none sid "user" ["hi"] 5)]
          ++ (stream_generator envC3.outcome envC3.now sid).2 ∧
      (∀ n : Nat,
        modelCount (applyOps emptyDB (((serve_streaming_chat envC3 emptyDB "u1"
              (ChatRequest.mk "hi" none (some "mochi"))).ops).take n)) sid
            + userCount emptyDB sid
          ≤ userCount (applyOps emptyDB (((serve_streaming_chat envC3 emptyDB "u1"
              (ChatRequest.mk "hi" none (some "mochi"))).ops).take n)) sid
            + modelCount emptyDB sid)) :=
  ⟨by decide, user_before_model_ordering envC3 emptyDB "u1"
    (ChatRequest.mk "hi" none (some "mochi"))
    [MessageInDB.mk none oid2 "user" ["hi"] 5] (by decide)⟩

end Mochi
